import Mathlib

set_option autoImplicit false

/-!
Shallow embedding of `cyberdrop_dl/base_functions/sql_helper.py` (class
`SQLHelper`).  The SQLite tables are modelled as Lean lists holding the rows
in insertion order; each method of the class becomes a pure function on the
`SQLHelper` state.  SQL statement semantics are embedded per the storage
engine's documented behaviour: `INSERT OR IGNORE` skips the insert exactly
when the statement would violate a uniqueness constraint declared on the
table, `SELECT ... fetchone()` returns the first row in insertion order
matching the WHERE clause, and `UPDATE` rewrites every matching row.
-/

namespace CDL

/-- MediaRow is one row of the `media` table created by
`create_media_history`: eight columns, with PRIMARY KEY
`(url_path, original_filename)`. -/
structure MediaRow where
  domain : String
  url_path : String
  album_path : String
  referer : String
  download_path : String
  download_filename : String
  original_filename : String
  completed : Int
  deriving Repr, DecidableEq

/-- SQLHelper models the store's state: the two construction flags, the
legacy-mode flag set by `check_old_history`, and the contents of the
`media`, `downloads_temp` and `coomeno` tables plus the legacy `downloads`
table (rows `(path, completed)`), each as a list in insertion order. -/
structure SQLHelper where
  ignore_history : Bool
  ignore_cache : Bool
  old_history : Bool
  media : List MediaRow
  downloads_temp : List String
  coomeno : List (String × String)
  downloads : List (String × Int)
  deriving Repr, DecidableEq

/-- Predicate for the `media` PRIMARY KEY `(url_path, original_filename)`:
used both by `INSERT OR IGNORE` conflict detection and by the WHERE clauses
keyed on `url_path = ? AND original_filename = ?`. -/
def mediaKeyMatch (url_path original_filename : String) (r : MediaRow) : Bool :=
  r.url_path == url_path && r.original_filename == original_filename

/-- Predicate for the WHERE clause `domain = ? AND url_path = ?` of
`check_complete_singular`. -/
def completeMatch (domain url_path : String) (r : MediaRow) : Bool :=
  r.domain == domain && r.url_path == url_path

/-- Embeds `insert_media` (sql_helper.py:126-131): `INSERT OR IGNORE INTO
media VALUES (?,?,?,?,?,?,?,?)`.  The insert is ignored exactly when a row
with the same primary key `(url_path, original_filename)` already exists. -/
def insert_media (s : SQLHelper) (domain url_path album_path referer download_path
    download_filename original_filename : String) (completed : Int) : SQLHelper :=
  if (s.media.find? (mediaKeyMatch url_path original_filename)).isSome then s
  else { s with media := s.media ++
    [{ domain := domain, url_path := url_path, album_path := album_path,
       referer := referer, download_path := download_path,
       download_filename := download_filename,
       original_filename := original_filename, completed := completed }] }

/-- Embeds `get_downloaded_filename` (sql_helper.py:165-172): selects
`download_filename` of the first row matching the key; returns the column
value when a row is found (`sql_file_check` is a non-empty tuple, hence
truthy, even when the stored filename is the empty string) and None when no
row matches.  The method consults no construction flag. -/
def get_downloaded_filename (s : SQLHelper) (url_path filename : String) : Option String :=
  match s.media.find? (mediaKeyMatch url_path filename) with
  | some r => some r.download_filename
  | none => none

/-- Embeds `check_complete_singular` (sql_helper.py:184-195): short-circuits
to False on `ignore_history`, else fetches the first row matching
`domain = ? AND url_path = ?` and returns False when none matches or its
`completed` column is 0, True otherwise. -/
def check_complete_singular (s : SQLHelper) (domain url_path : String) : Bool :=
  if s.ignore_history then false
  else
    match s.media.find? (completeMatch domain url_path) with
    | none => false
    | some r => if r.completed == 0 then false else true

/-- Embeds `sql_check_old_existing` (sql_helper.py:174-182): False unless
legacy mode is on, False under `ignore_history`, else looks up the legacy
`downloads` table by `path` and reports whether the row exists with
`completed == 1`. -/
def sql_check_old_existing (s : SQLHelper) (url_path : String) : Bool :=
  if !s.old_history then false
  else if s.ignore_history then false
  else
    match s.downloads.find? (fun p => p.1 == url_path) with
    | none => false
    | some p => p.2 == 1

/-- Embeds `check_filename` (sql_helper.py:199-203): EXISTS check over
`media` by `download_filename`. -/
def check_filename (s : SQLHelper) (filename : String) : Bool :=
  s.media.any (fun r => r.download_filename == filename)

/-- Per-row effect of the UPDATE in `update_pre_download`
(sql_helper.py:205-209): set `download_path` and `download_filename` on rows
matching the key, leave other rows unchanged. -/
def setTargetRow (path filename url_path original_filename : String) (r : MediaRow) : MediaRow :=
  if mediaKeyMatch url_path original_filename r then
    { r with download_path := path, download_filename := filename }
  else r

/-- Embeds `update_pre_download` (sql_helper.py:205-209): `UPDATE media SET
download_path = ?, download_filename = ? WHERE url_path = ? AND
original_filename = ?` rewrites every matching row. -/
def update_pre_download (s : SQLHelper) (path filename url_path original_filename : String) :
    SQLHelper :=
  { s with media := s.media.map (setTargetRow path filename url_path original_filename) }

/-- Per-row effect of the UPDATE in `mark_complete` (sql_helper.py:211-214):
set `completed = 1` on rows matching the key. -/
def setCompleteRow (url_path original_filename : String) (r : MediaRow) : MediaRow :=
  if mediaKeyMatch url_path original_filename r then { r with completed := 1 } else r

/-- Embeds `mark_complete` (sql_helper.py:211-214): `UPDATE media SET
completed = 1 WHERE url_path = ? AND original_filename = ?`. -/
def mark_complete (s : SQLHelper) (url_path original_filename : String) : SQLHelper :=
  { s with media := s.media.map (setCompleteRow url_path original_filename) }

/-- Embeds `sql_insert_temp` (sql_helper.py:102-105): `INSERT OR IGNORE INTO
downloads_temp VALUES (?)`.  The `downloads_temp` table
(create_media_history, sql_helper.py:54-56) declares a single column and no
PRIMARY KEY or UNIQUE constraint, so the OR IGNORE clause has no conflict it
could ever ignore and every call appends a row. -/
def sql_insert_temp (s : SQLHelper) (downloaded_filename : String) : SQLHelper :=
  { s with downloads_temp := s.downloads_temp ++ [downloaded_filename] }

/-- Embeds `get_temp_names` (sql_helper.py:95-100): returns every row of
`downloads_temp`, flattened into a list of strings in insertion order. -/
def get_temp_names (s : SQLHelper) : List String :=
  s.downloads_temp

/-- Embeds `insert_blob` (sql_helper.py:109-112): `INSERT OR IGNORE INTO
coomeno VALUES (?, ?)` with values `(url_path, blob)`; the table's PRIMARY
KEY is `url_path`, so the insert is ignored when the key is already cached. -/
def insert_blob (s : SQLHelper) (blob url_path : String) : SQLHelper :=
  if (s.coomeno.find? (fun p => p.1 == url_path)).isSome then s
  else { s with coomeno := s.coomeno ++ [(url_path, blob)] }

/-- Embeds `get_blob` (sql_helper.py:114-122): None under `ignore_cache`,
else the cached `post_data` for the first row with the given `url_path`, or
None when the key was never cached. -/
def get_blob (s : SQLHelper) (url_path : String) : Option String :=
  if s.ignore_cache then none
  else
    match s.coomeno.find? (fun p => p.1 == url_path) with
    | some p => some p.2
    | none => none

/-- MediaItem models one media entry of the data classes consumed by the
batch inserts: its URL, the yarl referer URL's path component
(`media.referer.path`), the referer's string form (`str(media.referer)`),
and the source filename. -/
structure MediaItem where
  url : String
  referer_path : String
  referer_str : String
  filename : String
  deriving Repr, DecidableEq

/-- AlbumItem models the album data class as consumed by `insert_album`: a
list of media entries. -/
structure AlbumItem where
  media : List MediaItem
  deriving Repr, DecidableEq

/-- DomainItem models the domain data class as consumed by `insert_domain`:
titled albums in iteration order. -/
structure DomainItem where
  albums : List (String × AlbumItem)
  deriving Repr, DecidableEq

/-- CascadeItem models the cascade data class as consumed by
`insert_cascade`: named domains in iteration order. -/
structure CascadeItem where
  domains : List (String × DomainItem)
  deriving Repr, DecidableEq

/-- CascadeItem.is_empty models `cascade.is_empty()`: a cascade with no
media at all.  Under this reading the guard in `insert_cascade` is
semantically transparent (an empty cascade makes the triple loop a no-op
anyway). -/
def CascadeItem.is_empty (c : CascadeItem) : Bool :=
  c.domains.all (fun dp => dp.2.albums.all (fun ap => ap.2.media.isEmpty))

/-- Embeds `insert_album` (sql_helper.py:133-140): for each media entry,
`INSERT OR IGNORE INTO media` with the caller-supplied `domain` and
`album_path`, `url_path` computed by the external helper `get_db_path`
(passed here as the function argument `gdp`), `referer = str(media.referer)`,
empty download fields and `completed = 0`. -/
def insert_album (gdp : String → String → String) (s : SQLHelper)
    (domain album_path : String) (album : AlbumItem) : SQLHelper :=
  album.media.foldl
    (fun acc m => insert_media acc domain (gdp m.url domain) album_path
      m.referer_str "" "" m.filename 0) s

/-- Embeds `insert_domain` (sql_helper.py:142-151): the same per-row insert
as `insert_album`, iterated over every album of the domain, storing the
caller-supplied `album_path` on every row. -/
def insert_domain (gdp : String → String → String) (s : SQLHelper)
    (domain_name album_path : String) (domain : DomainItem) : SQLHelper :=
  domain.albums.foldl
    (fun accA ap => ap.2.media.foldl
      (fun acc m => insert_media acc domain_name (gdp m.url domain_name) album_path
        m.referer_str "" "" m.filename 0) accA) s

/-- Embeds `insert_cascade` (sql_helper.py:153-163): iterates domains,
albums and media; each row stores `media.referer.path` in the `album_path`
column and `str(media.referer)` in the `referer` column, with empty download
fields and `completed = 0`. -/
def insert_cascade (gdp : String → String → String) (s : SQLHelper)
    (cascade : CascadeItem) : SQLHelper :=
  if cascade.is_empty then s
  else
    cascade.domains.foldl
      (fun accD dp => dp.2.albums.foldl
        (fun accA ap => ap.2.media.foldl
          (fun acc m => insert_media acc dp.1 (gdp m.url dp.1) m.referer_path
            m.referer_str "" "" m.filename 0) accA) accD) s

/-- StoreOp enumerates every operation of the store that touches the
database, with its arguments, so invariants can be stated over all of them. -/
inductive StoreOp where
  | opInsertMedia (domain url_path album_path referer download_path
      download_filename original_filename : String) (completed : Int)
  | opInsertAlbum (gdp : String → String → String)
      (domain album_path : String) (album : AlbumItem)
  | opInsertDomain (gdp : String → String → String)
      (domain_name album_path : String) (domain : DomainItem)
  | opInsertCascade (gdp : String → String → String) (cascade : CascadeItem)
  | opUpdatePreDownload (path filename url_path original_filename : String)
  | opMarkComplete (url_path original_filename : String)
  | opInsertTemp (downloaded_filename : String)
  | opInsertBlob (blob url_path : String)

/-- Dispatches a `StoreOp` to the corresponding store operation. -/
def applyOp (s : SQLHelper) : StoreOp → SQLHelper
  | .opInsertMedia d u a r dp df o c => insert_media s d u a r dp df o c
  | .opInsertAlbum gdp d ap alb => insert_album gdp s d ap alb
  | .opInsertDomain gdp d ap dom => insert_domain gdp s d ap dom
  | .opInsertCascade gdp cas => insert_cascade gdp s cas
  | .opUpdatePreDownload p f u o => update_pre_download s p f u o
  | .opMarkComplete u o => mark_complete s u o
  | .opInsertTemp f => sql_insert_temp s f
  | .opInsertBlob b u => insert_blob s b u

/-- DbFile models the on-disk database file at the granularity `pre_allocate`
observes it: the `PRAGMA freelist_count` value, the file size in bytes, and
the set of table names in the schema. -/
structure DbFile where
  freelist_count : Nat
  file_bytes : Nat
  schema : List String
  deriving Repr, DecidableEq

/-- Fixed reservation amount of `pre_allocate`: `zeroblob(50*1024*1024)`,
50 MiB. -/
def reservation_bytes : Nat := 50 * 1024 * 1024

/-- Effect of `CREATE TABLE IF NOT EXISTS t(x)` on the schema. -/
def db_create_t (f : DbFile) : DbFile :=
  if f.schema.contains "t" then f else { f with schema := f.schema ++ ["t"] }

/-- Effect of `INSERT INTO t VALUES(zeroblob(n))` on the file: per the
storage engine's behaviour for a blob far larger than the free list held
below the low-water mark, the file physically grows by the blob's size. -/
def db_insert_zeroblob (n : Nat) (f : DbFile) : DbFile :=
  { f with file_bytes := f.file_bytes + n }

/-- Effect of `DROP TABLE t` on the schema (the freed pages stay in the
file; dropping a table never shrinks the file). -/
def db_drop_t (f : DbFile) : DbFile :=
  { f with schema := f.schema.filter (fun t => t != "t") }

/-- Embeds `pre_allocate` (sql_helper.py:76-91): reads `PRAGMA
freelist_count`; when the count is at most 1024 it creates the throwaway
table `t`, inserts one 50 MiB zero blob, and drops the table; otherwise it
does nothing. -/
def pre_allocate (f : DbFile) : DbFile :=
  if f.freelist_count ≤ 1024 then
    db_drop_t (db_insert_zeroblob reservation_bytes (db_create_t f))
  else f

/-- ConnState models `self.conn` as `exit_handler` can encounter it: never
assigned (`None`), an open sqlite3 connection (with possibly uncommitted
writes), or an already-closed connection. -/
inductive ConnState where
  | noConn
  | openConn (pending : Bool)
  | closedConn
  deriving Repr, DecidableEq

/-- Models `self.conn.commit()`: on `None` it raises AttributeError, on a
closed connection sqlite3 raises ProgrammingError, on an open connection it
flushes pending writes. -/
def commitOp : ConnState → Except String ConnState
  | .noConn => .error "AttributeError"
  | .openConn _ => .ok (.openConn false)
  | .closedConn => .error "ProgrammingError"

/-- Models `self.conn.close()`: on `None` it raises AttributeError; closing
an open connection closes it, and sqlite3 allows closing an already-closed
connection as a no-op. -/
def closeOp : ConnState → Except String ConnState
  | .noConn => .error "AttributeError"
  | .openConn _ => .ok .closedConn
  | .closedConn => .ok .closedConn

/-- Body of the `try` block of `exit_handler` (sql_helper.py:218-220):
`self.conn.commit()` then `self.conn.close()`, propagating exceptions. -/
def exit_handler_body (c : ConnState) : Except String ConnState := do
  let c2 ← commitOp c
  closeOp c2

/-- Embeds `exit_handler` (sql_helper.py:216-224): runs the body and catches
every `Exception`, logging instead of propagating, so the handler itself
always returns normally (modelled as always producing `.ok`); when an
exception was swallowed the connection state is whatever it was when the
failing call raised. -/
def exit_handler (c : ConnState) : Except String ConnState :=
  match exit_handler_body c with
  | .ok c2 => .ok c2
  | .error _ => .ok c

/-! ### Shared helper definitions and lemmas -/

/-- Store constructed with both flags clear and every table empty, as after
`sql_initialize` on a fresh database file. -/
def emptyStore : SQLHelper :=
  { ignore_history := false, ignore_cache := false, old_history := false,
    media := [], downloads_temp := [], coomeno := [], downloads := [] }

/-- Helper: `find?` commutes with mapping a row function that preserves the
predicate. -/
theorem find?_map_pred_eq {α : Type} (p : α → Bool) (g : α → α)
    (hg : ∀ r, p (g r) = p r) (l : List α) :
    (l.map g).find? p = (l.find? p).map g := by
  rw [List.find?_map]
  have hpg : (p ∘ g) = p := funext hg
  rw [hpg]

/-- Helper: `setTargetRow` never changes the key columns, so key matching is
unaffected. -/
theorem mediaKeyMatch_setTargetRow (u o p f u2 o2 : String) (r : MediaRow) :
    mediaKeyMatch u o (setTargetRow p f u2 o2 r) = mediaKeyMatch u o r := by
  unfold setTargetRow
  split <;> rfl

/-- Helper: `setCompleteRow` never changes the key columns. -/
theorem mediaKeyMatch_setCompleteRow (u o u2 o2 : String) (r : MediaRow) :
    mediaKeyMatch u o (setCompleteRow u2 o2 r) = mediaKeyMatch u o r := by
  unfold setCompleteRow
  split <;> rfl

/-- Helper: `setCompleteRow` never changes the domain or url_path columns. -/
theorem completeMatch_setCompleteRow (d u u2 o2 : String) (r : MediaRow) :
    completeMatch d u (setCompleteRow u2 o2 r) = completeMatch d u r := by
  unfold setCompleteRow
  split <;> rfl

/-! ### Claim theorems -/

/-- C3 counterexample: claiming the filename "a.jpg" twice on a fresh store
leaves `list_claimed` with the name twice, not exactly once, so the second
claim is not a no-op as observed by `list_claimed`. -/
theorem claim_twice_duplicates :
    get_temp_names (sql_insert_temp (sql_insert_temp emptyStore "a.jpg") "a.jpg") =
      ["a.jpg", "a.jpg"] ∧
    (get_temp_names (sql_insert_temp (sql_insert_temp emptyStore "a.jpg") "a.jpg")).count
      "a.jpg" ≠ 1 := by
  constructor
  · rfl
  · decide

/-- C3 (amended): the `downloads_temp` table declares no uniqueness
constraint, so `INSERT OR IGNORE` never has a conflict to ignore: every
claim call appends one row, and after any sequence of claim calls
`list_claimed` contains each claimed name once per claim call (duplicate
claims raise no error, but they are not deduplicating no-ops). -/
theorem temp_claims_append (s : SQLHelper) (names : List String) :
    get_temp_names (names.foldl sql_insert_temp s) = get_temp_names s ++ names := by
  induction names generalizing s with
  | nil => simp [get_temp_names]
  | cons n ns ih =>
    rw [List.foldl_cons, ih]
    simp [get_temp_names, sql_insert_temp]

/-- C9: the shutdown finalizer never raises for any connection state
(including a never-opened or already-closed connection); on an open
connection it commits and closes; and running it a second time on the
resulting state is a no-op that also does not raise. -/
theorem exit_handler_never_raises (c : ConnState) :
    ∃ c2 : ConnState, exit_handler c = Except.ok c2 ∧
      exit_handler c2 = Except.ok c2 ∧
      ∀ p : Bool, c = ConnState.openConn p → c2 = ConnState.closedConn := by
  cases c with
  | noConn => exact ⟨ConnState.noConn, rfl, rfl, fun p h => nomatch h⟩
  | openConn p => exact ⟨ConnState.closedConn, rfl, rfl, fun _ _ => rfl⟩
  | closedConn => exact ⟨ConnState.closedConn, rfl, rfl, fun p h => nomatch h⟩

/-- C9 witness: the finalizer on an open connection with pending writes. -/
theorem exit_handler_never_raises_witness :
    ∃ c2 : ConnState, exit_handler (ConnState.openConn true) = Except.ok c2 ∧
      exit_handler c2 = Except.ok c2 ∧
      ∀ p : Bool, ConnState.openConn true = ConnState.openConn p →
        c2 = ConnState.closedConn :=
  exit_handler_never_raises (ConnState.openConn true)

/-- C8: on a database file with no stray table named `t`, `pre_allocate`
grows the file by the fixed 50 MiB reservation exactly when the free-page
count is at or below 1024, performs no growth above the threshold, and in
either case leaves no table named `t` in the schema. -/
theorem pre_allocate_growth (f : DbFile) (h : "t" ∉ f.schema) :
    (pre_allocate f).file_bytes =
      (if f.freelist_count ≤ 1024 then f.file_bytes + reservation_bytes
       else f.file_bytes) ∧
    "t" ∉ (pre_allocate f).schema := by
  have hc : f.schema.contains "t" = false := by
    simp [List.elem_eq_mem, h]
  by_cases hfl : f.freelist_count ≤ 1024
  · constructor
    · simp [pre_allocate, db_drop_t, db_insert_zeroblob, db_create_t, hfl, hc, h]
    · simp [pre_allocate, db_drop_t, db_insert_zeroblob, db_create_t, hfl, hc, h,
        List.mem_filter]
  · constructor
    · simp [pre_allocate, hfl]
    · simpa [pre_allocate, hfl] using h

/-- Concrete database file whose free-page count is below the low-water
mark. -/
def dbfile_low : DbFile :=
  { freelist_count := 100, file_bytes := 4096, schema := ["media"] }

/-- C8 witness: a file below the threshold grows by the reservation and ends
with no throwaway table. -/
theorem pre_allocate_growth_witness :
    (pre_allocate dbfile_low).file_bytes =
      (if dbfile_low.freelist_count ≤ 1024 then
        dbfile_low.file_bytes + reservation_bytes
       else dbfile_low.file_bytes) ∧
    "t" ∉ (pre_allocate dbfile_low).schema :=
  pre_allocate_growth dbfile_low (by decide)

/-- C7: with ignore_cache clear, the coomeno cache round-trips and is
write-once per key: caching a payload for a fresh url_path makes get return
that payload, and a later put of a different payload for the same url_path
leaves the original payload in place. -/
theorem coomeno_write_once (s : SQLHelper) (u v w : String)
    (hc : s.ignore_cache = false)
    (hfresh : s.coomeno.find? (fun p => p.1 == u) = none) :
    get_blob (insert_blob s v u) u = some v ∧
    get_blob (insert_blob (insert_blob s v u) w u) u = some v := by
  have h1 : insert_blob s v u = { s with coomeno := s.coomeno ++ [(u, v)] } := by
    simp [insert_blob, hfresh]
  have hfind : (s.coomeno ++ [(u, v)]).find? (fun p => p.1 == u) = some (u, v) := by
    rw [List.find?_append, hfresh]
    simp
  have h2 : insert_blob (insert_blob s v u) w u = insert_blob s v u := by
    rw [h1]
    simp [insert_blob, hfind]
  rw [h2, h1]
  simp [get_blob, hc, hfind]

/-- C7 witness: the spec's cache round-trip scenario on a fresh store. -/
theorem coomeno_write_once_witness :
    get_blob (insert_blob emptyStore "<html>" "/post1") "/post1" = some "<html>" ∧
    get_blob (insert_blob (insert_blob emptyStore "<html>" "/post1") "<different>" "/post1")
      "/post1" = some "<html>" :=
  coomeno_write_once emptyStore "/post1" "<html>" "<different>" rfl rfl

/-- Store constructed with ignore_history set and every table empty. -/
def ignoreHistoryStore : SQLHelper :=
  { emptyStore with ignore_history := true }

/-- C2 counterexample: on a store constructed with ignore_history set,
lookup_downloaded_filename still consults the media table and returns the
stored filename for a key inserted and targeted in the same session, rather
than reporting not-found. -/
theorem ignore_history_lookup_counterexample :
    ignoreHistoryStore.ignore_history = true ∧
    get_downloaded_filename
      (update_pre_download
        (insert_media ignoreHistoryStore "example" "/a" "alb" "http://x" "" "" "a.jpg" 0)
        "/downloads" "a_1.jpg" "/a" "a.jpg") "/a" "a.jpg" = some "a_1.jpg" ∧
    get_downloaded_filename
      (update_pre_download
        (insert_media ignoreHistoryStore "example" "/a" "alb" "http://x" "" "" "a.jpg" 0)
        "/downloads" "a_1.jpg" "/a" "a.jpg") "/a" "a.jpg" ≠ none := by
  refine ⟨rfl, ?_, ?_⟩ <;> decide

/-- C2 (amended): with ignore_history set, both completion lookups
(check_complete_singular and sql_check_old_existing) report false for every
key and every store state; the filename lookup get_downloaded_filename is
not gated on ignore_history and still returns stored filenames. -/
theorem ignore_history_completion_short_circuit (s : SQLHelper) (d u p : String)
    (h : s.ignore_history = true) :
    check_complete_singular s d u = false ∧ sql_check_old_existing s p = false := by
  constructor
  · simp [check_complete_singular, h]
  · simp [sql_check_old_existing, h]

/-- Store with ignore_history set whose key ("/a","a.jpg") was inserted and
marked complete in the same session, and whose legacy table also records
"/a" as complete. -/
def completedIgnoreStore : SQLHelper :=
  mark_complete
    (insert_media
      { ignoreHistoryStore with old_history := true, downloads := [("/a", 1)] }
      "example" "/a" "alb" "http://x" "" "" "a.jpg" 0)
    "/a" "a.jpg"

/-- C2 witness: completion lookups report false on a store with
ignore_history set even for a key inserted and marked complete in the same
session (and recorded complete in the legacy table). -/
theorem ignore_history_completion_short_circuit_witness :
    check_complete_singular completedIgnoreStore "example" "/a" = false ∧
    sql_check_old_existing completedIgnoreStore "/a" = false :=
  ignore_history_completion_short_circuit completedIgnoreStore "example" "/a" "/a" rfl

/-- C1 counterexample: a record inserted with empty download_path and
download_filename and never updated makes lookup_downloaded_filename return
the empty string (the row's stored download_filename column), not absent. -/
theorem fresh_lookup_counterexample :
    get_downloaded_filename
      (insert_media emptyStore "example" "/a" "alb" "http://x" "" "" "a.jpg" 0)
      "/a" "a.jpg" = some "" ∧
    get_downloaded_filename
      (insert_media emptyStore "example" "/a" "alb" "http://x" "" "" "a.jpg" 0)
      "/a" "a.jpg" ≠ none := by
  constructor <;> decide

/-- C1 (amended): for a key with no prior row, lookup_downloaded_filename
returns absent; after inserting a record with empty download fields it
returns the stored empty string (which callers must treat as
no-chosen-filename, but which is not the absent value); and once
mark_download_target sets a filename it returns that chosen filename. -/
theorem lookup_downloaded_filename_lifecycle (s : SQLHelper)
    (dm u ap rf o p f : String)
    (h : s.media.find? (mediaKeyMatch u o) = none) :
    get_downloaded_filename s u o = none ∧
    get_downloaded_filename (insert_media s dm u ap rf "" "" o 0) u o = some "" ∧
    get_downloaded_filename
      (update_pre_download (insert_media s dm u ap rf "" "" o 0) p f u o) u o
      = some f := by
  have hrow : mediaKeyMatch u o
      ({ domain := dm, url_path := u, album_path := ap, referer := rf,
         download_path := "", download_filename := "", original_filename := o,
         completed := 0 } : MediaRow) = true := by
    simp [mediaKeyMatch]
  have h1 : insert_media s dm u ap rf "" "" o 0 =
      { s with media := s.media ++
        [{ domain := dm, url_path := u, album_path := ap, referer := rf,
           download_path := "", download_filename := "", original_filename := o,
           completed := 0 }] } := by
    simp [insert_media, h]
  have hfind : (insert_media s dm u ap rf "" "" o 0).media.find? (mediaKeyMatch u o)
      = some { domain := dm, url_path := u, album_path := ap, referer := rf,
               download_path := "", download_filename := "", original_filename := o,
               completed := 0 } := by
    rw [h1]
    simp only []
    rw [List.find?_append, h]
    simp [hrow]
  refine ⟨?_, ?_, ?_⟩
  · simp [get_downloaded_filename, h]
  · simp [get_downloaded_filename, hfind]
  · have hmap : (update_pre_download (insert_media s dm u ap rf "" "" o 0) p f u o).media
        = ((insert_media s dm u ap rf "" "" o 0).media.map (setTargetRow p f u o)) := rfl
    unfold get_downloaded_filename
    rw [hmap, find?_map_pred_eq (mediaKeyMatch u o) (setTargetRow p f u o)
      (mediaKeyMatch_setTargetRow u o p f u o), hfind]
    simp [setTargetRow, hrow]

/-- C1 witness: the spec's end-to-end scenario on a fresh store. -/
theorem lookup_downloaded_filename_lifecycle_witness :
    get_downloaded_filename emptyStore "/a" "a.jpg" = none ∧
    get_downloaded_filename
      (insert_media emptyStore "example" "/a" "alb" "http://x" "" "" "a.jpg" 0)
      "/a" "a.jpg" = some "" ∧
    get_downloaded_filename
      (update_pre_download
        (insert_media emptyStore "example" "/a" "alb" "http://x" "" "" "a.jpg" 0)
        "/downloads" "a_1.jpg" "/a" "a.jpg") "/a" "a.jpg" = some "a_1.jpg" :=
  lookup_downloaded_filename_lifecycle emptyStore "example" "/a" "alb" "http://x"
    "a.jpg" "/downloads" "a_1.jpg" rfl

/-- C4 counterexample: insert_record accepts any integer for completed;
after inserting a record with completed = 2, is_complete returns true even
though no row of the table has completed = 1. -/
theorem is_complete_nonzero_counterexample :
    check_complete_singular
      (insert_media emptyStore "example" "/a" "alb" "http://x" "" "" "a.jpg" 2)
      "example" "/a" = true ∧
    (insert_media emptyStore "example" "/a" "alb" "http://x" "" "" "a.jpg" 2).media.all
      (fun r => r.completed != 1) = true := by
  constructor <;> decide

/-- C4 (amended): with ignore_history clear, is_complete(domain, url_path)
returns true iff the first row matching the domain and url_path exists and
its completed field is nonzero; it returns false when no row matches and
when that row has completed = 0 (for records whose completed field is
restricted to 0 or 1 this coincides with the claim, but insert_record
accepts any integer and every nonzero value reads as complete). -/
theorem is_complete_iff_nonzero (s : SQLHelper) (d u : String)
    (h : s.ignore_history = false) :
    check_complete_singular s d u = true ↔
      ∃ r, s.media.find? (completeMatch d u) = some r ∧ r.completed ≠ 0 := by
  cases hf : s.media.find? (completeMatch d u) with
  | none => simp [check_complete_singular, h, hf]
  | some r =>
    by_cases hr : r.completed = 0
    · simp [check_complete_singular, h, hf, hr]
    · simp [check_complete_singular, h, hf, hr]

/-- Store holding the single record of the spec's end-to-end scenario,
marked complete. -/
def completedStore : SQLHelper :=
  mark_complete
    (insert_media emptyStore "example" "/a" "alb" "http://x" "" "" "a.jpg" 0)
    "/a" "a.jpg"

/-- C4 witness: on the completed one-row store, is_complete agrees with the
first-matching-row-nonzero characterization. -/
theorem is_complete_iff_nonzero_witness :
    check_complete_singular completedStore "example" "/a" = true ↔
      ∃ r, completedStore.media.find? (completeMatch "example" "/a") = some r ∧
        r.completed ≠ 0 :=
  is_complete_iff_nonzero completedStore "example" "/a" rfl

/-- C5: insert_record is idempotent on its key: inserting a record for a key
not yet present and then inserting any second record with the same key
leaves the store exactly as after the first insert, with exactly one row for
that key holding the first record's field values; the second insert is a
silent no-op (the operation is total, so no error is possible). -/
theorem insert_media_idempotent (s : SQLHelper) (u o : String)
    (d1 a1 r1 dp1 df1 : String) (c1 : Int)
    (d2 a2 r2 dp2 df2 : String) (c2 : Int)
    (h : s.media.find? (mediaKeyMatch u o) = none) :
    insert_media (insert_media s d1 u a1 r1 dp1 df1 o c1) d2 u a2 r2 dp2 df2 o c2
      = insert_media s d1 u a1 r1 dp1 df1 o c1 ∧
    (insert_media (insert_media s d1 u a1 r1 dp1 df1 o c1) d2 u a2 r2 dp2 df2 o c2).media.filter
        (mediaKeyMatch u o)
      = [{ domain := d1, url_path := u, album_path := a1, referer := r1,
           download_path := dp1, download_filename := df1, original_filename := o,
           completed := c1 }] := by
  have hrow : mediaKeyMatch u o
      ({ domain := d1, url_path := u, album_path := a1, referer := r1,
         download_path := dp1, download_filename := df1, original_filename := o,
         completed := c1 } : MediaRow) = true := by
    simp [mediaKeyMatch]
  have h1 : insert_media s d1 u a1 r1 dp1 df1 o c1 =
      { s with media := s.media ++
        [{ domain := d1, url_path := u, album_path := a1, referer := r1,
           download_path := dp1, download_filename := df1, original_filename := o,
           completed := c1 }] } := by
    simp [insert_media, h]
  have hfind : (insert_media s d1 u a1 r1 dp1 df1 o c1).media.find? (mediaKeyMatch u o)
      = some { domain := d1, url_path := u, album_path := a1, referer := r1,
               download_path := dp1, download_filename := df1, original_filename := o,
               completed := c1 } := by
    rw [h1]
    simp only []
    rw [List.find?_append, h]
    simp [hrow]
  have hnoop : insert_media (insert_media s d1 u a1 r1 dp1 df1 o c1) d2 u a2 r2 dp2 df2 o c2
      = insert_media s d1 u a1 r1 dp1 df1 o c1 := by
    generalize hgen : insert_media s d1 u a1 r1 dp1 df1 o c1 = s1 at hfind ⊢
    unfold insert_media
    rw [hfind]
    simp
  refine ⟨hnoop, ?_⟩
  rw [hnoop, h1]
  simp only []
  rw [List.filter_append]
  have hempty : s.media.filter (mediaKeyMatch u o) = [] := by
    rw [List.filter_eq_nil_iff]
    intro r hr
    have := List.find?_eq_none.mp h r hr
    simpa using this
  rw [hempty]
  simp [hrow]

/-- C5 witness: inserting the scenario record and then a conflicting record
with the same key but different fields leaves only the first record. -/
theorem insert_media_idempotent_witness :
    insert_media
      (insert_media emptyStore "example" "/a" "alb" "http://x" "" "" "a.jpg" 0)
      "other" "/a" "alb2" "http://y" "/dl" "b.jpg" "a.jpg" 1
      = insert_media emptyStore "example" "/a" "alb" "http://x" "" "" "a.jpg" 0 ∧
    (insert_media
      (insert_media emptyStore "example" "/a" "alb" "http://x" "" "" "a.jpg" 0)
      "other" "/a" "alb2" "http://y" "/dl" "b.jpg" "a.jpg" 1).media.filter
        (mediaKeyMatch "/a" "a.jpg")
      = [{ domain := "example", url_path := "/a", album_path := "alb",
           referer := "http://x", download_path := "", download_filename := "",
           original_filename := "a.jpg", completed := 0 }] :=
  insert_media_idempotent emptyStore "/a" "a.jpg" "example" "alb" "http://x" "" "" 0
    "other" "alb2" "http://y" "/dl" "b.jpg" 1 rfl

/-- Predicate for C6: the key `(u, o)` has at least one row in the media
table and every row for the key has `completed = 1`. -/
def keyCompleted (s : SQLHelper) (u o : String) : Prop :=
  (∃ r ∈ s.media, mediaKeyMatch u o r = true) ∧
  ∀ r ∈ s.media, mediaKeyMatch u o r = true → r.completed = 1

/-- Helper: `setTargetRow` never touches the completed column. -/
theorem setTargetRow_completed (p f u2 o2 : String) (r : MediaRow) :
    (setTargetRow p f u2 o2 r).completed = r.completed := by
  unfold setTargetRow
  split <;> rfl

/-- Helper: `setCompleteRow` sets the completed column to 1 or leaves it. -/
theorem setCompleteRow_completed (u2 o2 : String) (r : MediaRow) :
    (setCompleteRow u2 o2 r).completed = 1 ∨
    (setCompleteRow u2 o2 r).completed = r.completed := by
  unfold setCompleteRow
  split
  · exact Or.inl rfl
  · exact Or.inr rfl

/-- Helper: a single `INSERT OR IGNORE` into media preserves
`keyCompleted`: a conflicting insert for the key is ignored, and a row for a
different key does not affect the key's rows. -/
theorem keyCompleted_insert_media (s : SQLHelper) (u o d u2 a rf dp df o2 : String)
    (c : Int) (hs : keyCompleted s u o) :
    keyCompleted (insert_media s d u2 a rf dp df o2 c) u o := by
  obtain ⟨⟨r0, hr0m, hr0k⟩, hall⟩ := hs
  unfold insert_media
  split
  · exact ⟨⟨r0, hr0m, hr0k⟩, hall⟩
  · rename_i hnone
    refine ⟨⟨r0, List.mem_append_left _ hr0m, hr0k⟩, ?_⟩
    intro r hr hrk
    rcases List.mem_append.mp hr with hl | hr1
    · exact hall r hl hrk
    · exfalso
      have hre : r =
          { domain := d, url_path := u2, album_path := a, referer := rf,
            download_path := dp, download_filename := df, original_filename := o2,
            completed := c } := by simpa using hr1
      subst hre
      have hu2 : u2 = u ∧ o2 = o := by
        unfold mediaKeyMatch at hrk
        simpa using hrk
      apply hnone
      rw [List.find?_isSome]
      refine ⟨r0, hr0m, ?_⟩
      rw [hu2.1, hu2.2]
      exact hr0k

/-- Helper: folding any `keyCompleted`-preserving step over a list preserves
`keyCompleted`. -/
theorem keyCompleted_foldl {α : Type} (u o : String) (g : SQLHelper → α → SQLHelper)
    (hg : ∀ t a, keyCompleted t u o → keyCompleted (g t a) u o) (l : List α)
    (s : SQLHelper) (hs : keyCompleted s u o) :
    keyCompleted (l.foldl g s) u o := by
  induction l generalizing s with
  | nil => exact hs
  | cons a as ih => exact ih (g s a) (hg s a hs)

/-- Helper: a rowwise UPDATE that preserves the key columns and either sets
completed to 1 or leaves it preserves `keyCompleted`. -/
theorem keyCompleted_map (u o : String) (g : MediaRow → MediaRow)
    (hkey : ∀ r, mediaKeyMatch u o (g r) = mediaKeyMatch u o r)
    (hcomp : ∀ r, (g r).completed = 1 ∨ (g r).completed = r.completed)
    (s : SQLHelper) (hs : keyCompleted s u o) :
    keyCompleted { s with media := s.media.map g } u o := by
  obtain ⟨⟨r0, hr0m, hr0k⟩, hall⟩ := hs
  refine ⟨⟨g r0, List.mem_map_of_mem g hr0m, by rw [hkey]; exact hr0k⟩, ?_⟩
  intro r hr hrk
  rcases List.mem_map.mp hr with ⟨r1, hr1m, hr1e⟩
  subst hr1e
  rcases hcomp r1 with h1 | h1
  · exact h1
  · rw [h1]
    exact hall r1 hr1m (by rw [← hkey r1]; exact hrk)

/-- Helper: setting completed to 1 twice for the same key equals setting it
once, row by row. -/
theorem setCompleteRow_idem (u o : String) (r : MediaRow) :
    setCompleteRow u o (setCompleteRow u o r) = setCompleteRow u o r := by
  by_cases hm : mediaKeyMatch u o r = true
  · simp [setCompleteRow, hm, mediaKeyMatch] at hm ⊢
    simp [hm]
  · simp [setCompleteRow, hm]

/-- C6 (amended): the completed flag is monotonic: if every row of a key reads
completed = 1 then it still does after any store operation (single insert,
any batch insert, the pre-download target update, or mark_complete, as well
as the temp-name and blob inserts); mark_complete twice equals mark_complete
once; and when the first row matching (domain, url_path) belongs to the key,
is_complete reads true right after mark_complete on that key. -/
theorem completed_monotonic (s : SQLHelper) (u o d : String) (op : StoreOp) :
    (keyCompleted s u o → keyCompleted (applyOp s op) u o) ∧
    mark_complete (mark_complete s u o) u o = mark_complete s u o ∧
    ((s.ignore_history = false ∧
        ∃ r, s.media.find? (completeMatch d u) = some r ∧ mediaKeyMatch u o r = true) →
      check_complete_singular (mark_complete s u o) d u = true) := by
  refine ⟨?_, ?_, ?_⟩
  · intro hs
    cases op with
    | opInsertMedia d2 u2 a2 r2 dp2 df2 o2 c2 =>
      exact keyCompleted_insert_media s u o d2 u2 a2 r2 dp2 df2 o2 c2 hs
    | opInsertAlbum gdp d2 ap alb =>
      exact keyCompleted_foldl u o _
        (fun t m ht => keyCompleted_insert_media t u o d2 (gdp m.url d2) ap
          m.referer_str "" "" m.filename 0 ht) alb.media s hs
    | opInsertDomain gdp d2 ap dom =>
      refine keyCompleted_foldl u o _ ?_ dom.albums s hs
      intro t a ht
      exact keyCompleted_foldl u o _
        (fun t2 m ht2 => keyCompleted_insert_media t2 u o d2 (gdp m.url d2) ap
          m.referer_str "" "" m.filename 0 ht2) a.2.media t ht
    | opInsertCascade gdp cas =>
      show keyCompleted (insert_cascade gdp s cas) u o
      unfold insert_cascade
      split
      · exact hs
      · refine keyCompleted_foldl u o _ ?_ cas.domains s hs
        intro t dp ht
        refine keyCompleted_foldl u o _ ?_ dp.2.albums t ht
        intro t2 ap ht2
        exact keyCompleted_foldl u o _
          (fun t3 m ht3 => keyCompleted_insert_media t3 u o dp.1 (gdp m.url dp.1)
            m.referer_path m.referer_str "" "" m.filename 0 ht3) ap.2.media t2 ht2
    | opUpdatePreDownload p f u2 o2 =>
      exact keyCompleted_map u o (setTargetRow p f u2 o2)
        (mediaKeyMatch_setTargetRow u o p f u2 o2)
        (fun r => Or.inr (setTargetRow_completed p f u2 o2 r)) s hs
    | opMarkComplete u2 o2 =>
      exact keyCompleted_map u o (setCompleteRow u2 o2)
        (mediaKeyMatch_setCompleteRow u o u2 o2)
        (setCompleteRow_completed u2 o2) s hs
    | opInsertTemp f => exact hs
    | opInsertBlob b u2 =>
      show keyCompleted (insert_blob s b u2) u o
      unfold insert_blob
      split
      · exact hs
      · exact hs
  · have hcomp : (setCompleteRow u o) ∘ (setCompleteRow u o) = setCompleteRow u o :=
      funext (setCompleteRow_idem u o)
    simp [mark_complete, List.map_map, hcomp]
  · rintro ⟨hig, r, hfr, hrk⟩
    have hmap : (mark_complete s u o).media.find? (completeMatch d u)
        = some (setCompleteRow u o r) := by
      rw [show (mark_complete s u o).media = s.media.map (setCompleteRow u o) from rfl,
        find?_map_pred_eq (completeMatch d u) (setCompleteRow u o)
          (completeMatch_setCompleteRow d u u o), hfr]
      rfl
    have hone : (setCompleteRow u o r).completed = 1 := by
      unfold setCompleteRow
      rw [if_pos hrk]
    unfold check_complete_singular
    rw [show (mark_complete s u o).ignore_history = s.ignore_history from rfl, hig,
      hmap]
    simp [hone]

/-- Store holding two pending records sharing domain "example" and url_path
"/a" under different original filenames, with the second key ("/a","f2")
marked complete. -/
def shadowStore : SQLHelper :=
  mark_complete
    (insert_media
      (insert_media emptyStore "example" "/a" "alb" "http://x" "" "" "f1" 0)
      "example" "/a" "alb" "http://x" "" "" "f2" 0)
    "/a" "f2"

/-- C6 counterexample: the key ("/a","f2") exists and its row reads
completed = 1 right after mark_complete, yet is_complete("example","/a")
returns false, because it fetches the first row matching the domain and
url_path — the still-pending ("/a","f1") row — so the clause "is_complete
reports true after mark_complete on an existing key" fails in the code. -/
theorem completed_shadowed_counterexample :
    shadowStore.ignore_history = false ∧
    (∃ r ∈ shadowStore.media, mediaKeyMatch "/a" "f2" r = true ∧ r.completed = 1) ∧
    check_complete_singular shadowStore "example" "/a" = false := by
  refine ⟨rfl, ?_, ?_⟩ <;> decide

/-- Row of `completedStore` for the scenario key. -/
def completedRow : MediaRow :=
  { domain := "example", url_path := "/a", album_path := "alb",
    referer := "http://x", download_path := "", download_filename := "",
    original_filename := "a.jpg", completed := 1 }

/-- C6 witness: on the completed one-row store, a conflicting insert leaves
the key completed, mark_complete is idempotent, and is_complete reads true
after mark_complete. -/
theorem completed_monotonic_witness :
    keyCompleted
      (applyOp completedStore
        (StoreOp.opInsertMedia "other" "/a" "alb2" "http://y" "" "" "a.jpg" 0))
      "/a" "a.jpg" ∧
    mark_complete (mark_complete completedStore "/a" "a.jpg") "/a" "a.jpg"
      = mark_complete completedStore "/a" "a.jpg" ∧
    check_complete_singular (mark_complete completedStore "/a" "a.jpg") "example" "/a"
      = true := by
  have h := completed_monotonic completedStore "/a" "a.jpg" "example"
    (StoreOp.opInsertMedia "other" "/a" "alb2" "http://y" "" "" "a.jpg" 0)
  refine ⟨h.1 ⟨⟨completedRow, by decide, by decide⟩, by decide⟩,
    h.2.1, h.2.2 ⟨rfl, completedRow, by decide, by decide⟩⟩

/-- Helper: a row of the table after a single `INSERT OR IGNORE` is either a
pre-existing row or exactly the inserted record. -/
theorem mem_insert_media_cases (s : SQLHelper) (d u a rf dp df o : String) (c : Int)
    (r : MediaRow) (hr : r ∈ (insert_media s d u a rf dp df o c).media) :
    r ∈ s.media ∨ r =
      { domain := d, url_path := u, album_path := a, referer := rf,
        download_path := dp, download_filename := df, original_filename := o,
        completed := c } := by
  unfold insert_media at hr
  split at hr
  · exact Or.inl hr
  · rcases List.mem_append.mp hr with h1 | h2
    · exact Or.inl h1
    · exact Or.inr (by simpa using h2)

/-- Helper: a row of the table after folding a per-item insert over a list
is either a pre-existing row or accounted for by some item of the list. -/
theorem mem_foldl_media {α : Type} (g : SQLHelper → α → SQLHelper)
    (P : α → MediaRow → Prop)
    (hg : ∀ t a r, r ∈ (g t a).media → r ∈ t.media ∨ P a r) :
    ∀ (l : List α) (s : SQLHelper) (r : MediaRow),
      r ∈ (l.foldl g s).media → r ∈ s.media ∨ ∃ a ∈ l, P a r := by
  intro l
  induction l with
  | nil => exact fun s r hr => Or.inl hr
  | cons a as ih =>
    intro s r hr
    rcases ih (g s a) r hr with h1 | ⟨a2, ha2, hp⟩
    · rcases hg s a r h1 with h2 | hp
      · exact Or.inl h2
      · exact Or.inr ⟨a, List.mem_cons_self a as, hp⟩
    · exact Or.inr ⟨a2, List.mem_cons_of_mem a ha2, hp⟩

/-- C10: every row inserted by the cascade batch insert stores the path
component of that media's referer URL in the album_path column (and the
referer URL's string form in the referer column), while the album and
domain batch inserts store the caller-supplied album_path on every inserted
row. -/
theorem album_path_provenance (gdp : String → String → String) (s : SQLHelper)
    (cascade : CascadeItem) (domain album_path : String) (album : AlbumItem)
    (dom : DomainItem) :
    (∀ r ∈ (insert_cascade gdp s cascade).media, r ∉ s.media →
      ∃ dp ∈ cascade.domains, ∃ ap ∈ dp.2.albums, ∃ m ∈ ap.2.media,
        r.album_path = m.referer_path ∧ r.referer = m.referer_str) ∧
    (∀ r ∈ (insert_album gdp s domain album_path album).media, r ∉ s.media →
      r.album_path = album_path) ∧
    (∀ r ∈ (insert_domain gdp s domain album_path dom).media, r ∉ s.media →
      r.album_path = album_path) := by
  refine ⟨?_, ?_, ?_⟩
  · intro r hr hrn
    unfold insert_cascade at hr
    split at hr
    · exact absurd hr hrn
    · have hcas := mem_foldl_media _
        (fun dp r => ∃ ap ∈ dp.2.albums, ∃ m ∈ ap.2.media,
          r.album_path = m.referer_path ∧ r.referer = m.referer_str)
        (fun t dp r hrd => by
          have halb := mem_foldl_media _
            (fun ap r => ∃ m ∈ ap.2.media,
              r.album_path = m.referer_path ∧ r.referer = m.referer_str)
            (fun t2 ap r hra => by
              have hmed := mem_foldl_media _
                (fun m r => r.album_path = m.referer_path ∧ r.referer = m.referer_str)
                (fun t3 m r hrm => by
                  rcases mem_insert_media_cases t3 dp.1 (gdp m.url dp.1)
                      m.referer_path m.referer_str "" "" m.filename 0 r hrm with h1 | h2
                  · exact Or.inl h1
                  · subst h2
                    exact Or.inr ⟨rfl, rfl⟩)
                ap.2.media t2 r hra
              exact hmed)
            dp.2.albums t r hrd
          exact halb)
        cascade.domains s r hr
      rcases hcas with h1 | hp
      · exact absurd h1 hrn
      · exact hp
  · intro r hr hrn
    unfold insert_album at hr
    have halb := mem_foldl_media _
      (fun (m : MediaItem) (r : MediaRow) => r.album_path = album_path)
      (fun t m r hrm => by
        rcases mem_insert_media_cases t domain (gdp m.url domain) album_path
            m.referer_str "" "" m.filename 0 r hrm with h1 | h2
        · exact Or.inl h1
        · subst h2
          exact Or.inr rfl)
      album.media s r hr
    rcases halb with h1 | ⟨m, hm, hp⟩
    · exact absurd h1 hrn
    · exact hp
  · intro r hr hrn
    unfold insert_domain at hr
    have hdom := mem_foldl_media _
      (fun (ap : String × AlbumItem) (r : MediaRow) => r.album_path = album_path)
      (fun t ap r hra => by
        have hmed := mem_foldl_media _
          (fun (m : MediaItem) (r : MediaRow) => r.album_path = album_path)
          (fun t2 m r hrm => by
            rcases mem_insert_media_cases t2 domain (gdp m.url domain) album_path
                m.referer_str "" "" m.filename 0 r hrm with h1 | h2
            · exact Or.inl h1
            · subst h2
              exact Or.inr rfl)
          ap.2.media t r hra
        rcases hmed with h1 | ⟨m, hm, hp⟩
        · exact Or.inl h1
        · exact Or.inr hp)
      dom.albums s r hr
    rcases hdom with h1 | ⟨ap, hap, hp⟩
    · exact absurd h1 hrn
    · exact hp

/-- Trivial stand-in for the external `get_db_path` helper in concrete
scenarios: the url itself. -/
def gdp0 : String → String → String := fun u _ => u

/-- Concrete media item for the C10 scenario. -/
def mi0 : MediaItem :=
  { url := "http://site/img.jpg", referer_path := "/ref/page",
    referer_str := "http://site/ref/page", filename := "img.jpg" }

/-- Concrete one-item album. -/
def alb0 : AlbumItem := { media := [mi0] }

/-- Concrete one-album domain. -/
def dom0 : DomainItem := { albums := [("t1", alb0)] }

/-- Concrete one-domain cascade. -/
def cas0 : CascadeItem := { domains := [("site", dom0)] }

/-- Row inserted by `insert_cascade gdp0 emptyStore cas0`. -/
def cascadeRow : MediaRow :=
  { domain := "site", url_path := "http://site/img.jpg", album_path := "/ref/page",
    referer := "http://site/ref/page", download_path := "", download_filename := "",
    original_filename := "img.jpg", completed := 0 }

/-- C10 witness: the row produced by a concrete cascade insert carries its
media item's referer path as album_path. -/
theorem album_path_provenance_witness :
    ∃ dp ∈ cas0.domains, ∃ ap ∈ dp.2.albums, ∃ m ∈ ap.2.media,
      cascadeRow.album_path = m.referer_path ∧ cascadeRow.referer = m.referer_str :=
  (album_path_provenance gdp0 emptyStore cas0 "site" "alb" alb0 dom0).1
    cascadeRow (by decide) (by decide)

end CDL
